import Mathlib

/-!
# Verification of the AI-Ticket-System resolution pipeline

Shallow embedding of the ticket-resolution pipeline of the repository
`AI-Ticket-System` (files `src/agents/data_types.py`,
`src/agents/ticket_analysis.py`, `src/agents/response_agent.py`,
`src/agents/ticket_processor.py`), together with theorems settling the
spec claims about it.

Modelling conventions:
* Python dictionaries are association lists preserving insertion order
  (`dictSet` replaces in place, else appends — Python 3.7+ dict semantics).
* Python floats are modelled by `ℚ`; no claim depends on rounding.
* `datetime.now()` is modelled by successive readings of an ambient clock
  `Nat → ℚ`; a call consumes one index.
* The outcomes of the three external network calls (structured extraction,
  sentence similarity, structured generation) are inputs of the model: each
  is either a raised exception, a payload whose `json.loads` fails, or a
  parsed JSON value.
* Python exceptions are the inductive `PyError`; `PyError.str` models
  Python's `str(e)`.
-/

/-- A Python value as it appears in parsed JSON payloads, the shared
context map and `customer_info`. -/
inductive PyVal where
  | pstr : String → PyVal
  | pint : Int → PyVal
  | pbool : Bool → PyVal
  | plist : List PyVal → PyVal
  | pdict : List (String × PyVal) → PyVal
deriving Repr

/-- A Python dict of string keys: an insertion-ordered association list. -/
abbrev Ctx := List (String × PyVal)

/-- `d[k] = v` for a Python dict: replace in place when the key is present
(keys are unique in every dict the program builds, so replacing the first
occurrence is Python's behaviour), append otherwise. -/
def dictSet : Ctx → String → PyVal → Ctx
  | [], k, v => [(k, v)]
  | p :: rest, k, v => if p.1 = k then (k, v) :: rest else p :: dictSet rest k v

/-- `d.update(upd)` for a Python dict: set each pair in order. -/
def dictUpdate (ctx : Ctx) (upd : List (String × PyVal)) : Ctx :=
  upd.foldl (fun c p => dictSet c p.1 p.2) ctx

/-- `d.get(k)` / `d[k]` lookup (first binding wins; bindings are unique for
dicts built from `dictSet`). -/
def dictGet (ctx : Ctx) (k : String) : Option PyVal :=
  (ctx.find? (fun p => p.1 = k)).map (fun p => p.2)

mutual

/-- Model of `json.dumps` (string escaping elided; only the length of the
result feeds `get_processing_stats`, and no claim depends on exact text). -/
def jsonDumps : PyVal → String
  | .pstr s => "\x22" ++ s ++ "\x22"
  | .pint n => toString n
  | .pbool b => cond b "true" "false"
  | .plist xs => "[" ++ jsonDumpsList xs ++ "]"
  | .pdict kvs => "\x7b" ++ jsonDumpsPairs kvs ++ "\x7d"

def jsonDumpsList : List PyVal → String
  | [] => ""
  | [x] => jsonDumps x
  | x :: xs => jsonDumps x ++ ", " ++ jsonDumpsList xs

def jsonDumpsPairs : List (String × PyVal) → String
  | [] => ""
  | [(k, v)] => "\x22" ++ k ++ "\x22: " ++ jsonDumps v
  | (k, v) :: xs => "\x22" ++ k ++ "\x22: " ++ jsonDumps v ++ ", " ++ jsonDumpsPairs xs

end

/-! ## Enumerations (`src/agents/data_types.py`) -/

/-- `class TicketCategory(Enum)`. -/
inductive TicketCategory where
  | TECHNICAL
  | BILLING
  | FEATURE
  | ACCESS
deriving Repr, DecidableEq

/-- `.value` of the category enum. -/
def TicketCategory.value : TicketCategory → String
  | .TECHNICAL => "technical"
  | .BILLING => "billing"
  | .FEATURE => "feature"
  | .ACCESS => "access"

/-- The Python enum constructor `TicketCategory(x)`: succeeds exactly on
the four member values, otherwise Python raises `ValueError`. -/
def TicketCategory.fromVal : PyVal → Option TicketCategory
  | .pstr "technical" => some .TECHNICAL
  | .pstr "billing" => some .BILLING
  | .pstr "feature" => some .FEATURE
  | .pstr "access" => some .ACCESS
  | _ => none

/-- `class Priority(Enum)`: LOW=1, MEDIUM=2, HIGH=3, URGENT=4. -/
inductive Priority where
  | LOW
  | MEDIUM
  | HIGH
  | URGENT
deriving Repr, DecidableEq

/-- `.value` of the priority enum. -/
def Priority.value : Priority → Int
  | .LOW => 1
  | .MEDIUM => 2
  | .HIGH => 3
  | .URGENT => 4

/-- The Python enum constructor `Priority(x)`. -/
def Priority.fromVal : PyVal → Option Priority
  | .pint 1 => some .LOW
  | .pint 2 => some .MEDIUM
  | .pint 3 => some .HIGH
  | .pint 4 => some .URGENT
  | _ => none

/-! ## Exceptions

The source defines no exception classes of its own; the errors that can
arise in the pipeline are Python built-ins.  `extractionError` and
`generationError` are the classes NAMED BY THE SPEC's error taxonomy (§7);
they are included only so that claims about that taxonomy can be stated —
no code in `src/` defines or raises them. -/

inductive PyError where
  | keyError : String → PyError
  | valueError : String → PyError
  | jsonDecodeError : String → PyError
  | genericError : String → PyError
  | extractionError : String → PyError
  | generationError : String → PyError
deriving Repr, DecidableEq

/-- Python's `str(e)`.  `str` of a `KeyError` is the `repr` of the missing
key, i.e. the key in quotes. -/
def PyError.str : PyError → String
  | .keyError k => "\x27" ++ k ++ "\x27"
  | .valueError m => m
  | .jsonDecodeError m => m
  | .genericError m => m
  | .extractionError m => m
  | .generationError m => m

/-- Whether an error is of the spec's `ExtractionError` class. -/
def PyError.isExtractionError : PyError → Bool
  | .extractionError _ => true
  | _ => false

/-- Whether an error is a Python `KeyError`. -/
def PyError.isKeyError : PyError → Bool
  | .keyError _ => true
  | _ => false

/-- Whether an error is a Python `ValueError` (Python's `JSONDecodeError`
is a subclass of `ValueError`; here they are separate constructors and
this predicate covers only plain `ValueError`). -/
def PyError.isValueError : PyError → Bool
  | .valueError _ => true
  | _ => false

/-! ## Data model (`src/agents/data_types.py`)

The dataclasses perform no runtime validation: fields taken verbatim from
the parsed JSON arguments are stored as `PyVal`, exactly as Python stores
whatever object the JSON parser produced. -/

/-- `@dataclass class TicketAnalysis`. -/
structure TicketAnalysis where
  category : TicketCategory
  priority : Priority
  key_points : PyVal
  required_expertise : PyVal
  sentiment : ℚ
  urgency_indicators : PyVal
  business_impact : PyVal
  suggested_response_type : PyVal
deriving Repr

/-- `@dataclass class ResponseSuggestion`. -/
structure ResponseSuggestion where
  response_text : PyVal
  confidence_score : PyVal
  requires_approval : PyVal
  suggested_actions : PyVal
deriving Repr

/-- `@dataclass class SupportTicket`. -/
structure SupportTicket where
  id : String
  subject : String
  content : String
  customer_info : List (String × PyVal)
deriving Repr

/-- `@dataclass class TicketResolution`. -/
structure TicketResolution where
  ticket_id : String
  analysis : Option TicketAnalysis
  response : Option ResponseSuggestion
  processed_at : ℚ
  processing_time : ℚ
  status : String
  error : Option String := none
deriving Repr

/-! ## External-call outcomes -/

/-- Outcome of one external network call followed by `json.loads` on its
payload: the call raises, the payload is not valid JSON, or a JSON value
is obtained. -/
inductive CallOutcome where
  | callFailed : PyError → CallOutcome
  | malformedJson : String → CallOutcome
  | parsed : PyVal → CallOutcome
deriving Repr

/-! ## Sentiment sub-algorithm (`src/agents/ticket_analysis.py`,
`TicketAnalysisAgent._analyze_sentiment`)

The body is one `try` block: post to the similarity service, `json.loads`
the response, return `similarities[0] - similarities[1]`.  Any exception —
the call raising, the decode failing, or the indexing raising `IndexError`
on a too-short list — is caught and `0.0` returned.  Note: NO clamping is
performed on the success path.  The similarity response is a JSON list of
scores, modelled as `List ℚ`. -/

/-- Outcome of the similarity call (scores already decoded when the call
and decode succeed). -/
inductive SimilarityOutcome where
  | callFailed : PyError → SimilarityOutcome
  | malformedJson : String → SimilarityOutcome
  | scores : List ℚ → SimilarityOutcome
deriving Repr, DecidableEq

/-- `_analyze_sentiment` (leading underscore dropped; Lean reserves it). -/
def analyze_sentiment (o : SimilarityOutcome) : ℚ :=
  match o with
  | .callFailed _ => 0
  | .malformedJson _ => 0
  | .scores xs =>
    match xs with
    | x :: y :: _ => x - y
    | _ => 0

/-- The similarity call failed to produce a usable pair of scores
(network/service error, malformed response, or fewer than two scores). -/
def simFailed (o : SimilarityOutcome) : Bool :=
  match o with
  | .callFailed _ => true
  | .malformedJson _ => true
  | .scores xs => decide (xs.length < 2)

/-! ## Analysis agent (`src/agents/ticket_analysis.py`) -/

/-- Python subscript `v[k]` on a parsed JSON value: `KeyError` when the key
is missing from a dict, `TypeError` (a generic error here) when the value
is not a dict at all. -/
def getItem (v : PyVal) (k : String) : Except PyError PyVal :=
  match v with
  | .pdict kvs =>
    match dictGet kvs k with
    | some x => .ok x
    | none => .error (.keyError k)
  | _ => .error (.genericError "TypeError: value is not subscriptable")

/-- Model of `datetime.isoformat()`: an injective rendering of the clock
reading; no claim depends on the exact text. -/
def isoformat (t : ℚ) : String :=
  reprStr t

/-- Exception propagation through sequential Python expression
evaluation: the first raised exception aborts the surrounding statement.
-/
def pyBind {α : Type} (x : Except PyError PyVal) (f : PyVal → Except PyError α) :
    Except PyError α :=
  match x with
  | .error e => .error e
  | .ok v => f v

theorem pyBind_error {α : Type} (e : PyError) (f : PyVal → Except PyError α) :
    pyBind (.error e) f = .error e := rfl

theorem pyBind_ok {α : Type} (v : PyVal) (f : PyVal → Except PyError α) :
    pyBind (.ok v) f = f v := rfl

theorem getItem_pdict (kvs : List (String × PyVal)) (k : String) :
    getItem (.pdict kvs) k =
      match dictGet kvs k with
      | some x => .ok x
      | none => .error (.keyError k) := rfl

/-- The construction of the `TicketAnalysis` object at the end of
`analyze_ticket`: Python evaluates the constructor arguments in source
order — `category` (subscript then enum constructor), `priority` (same),
then the plain subscripts `key_points`, `required_expertise`,
`urgency_indicators`, `business_impact`, `suggested_response_type`.  The
first failing evaluation raises.  `sentiment` is already a value at this
point. -/
def parseAnalysisResult (analysis_result : PyVal) (sentiment : ℚ) :
    Except PyError TicketAnalysis :=
  pyBind (getItem analysis_result "category") fun catV =>
  match TicketCategory.fromVal catV with
  | none => .error (.valueError (jsonDumps catV ++ " is not a valid TicketCategory"))
  | some category =>
  pyBind (getItem analysis_result "priority") fun priV =>
  match Priority.fromVal priV with
  | none => .error (.valueError (jsonDumps priV ++ " is not a valid Priority"))
  | some priority =>
  pyBind (getItem analysis_result "key_points") fun key_points =>
  pyBind (getItem analysis_result "required_expertise") fun required_expertise =>
  pyBind (getItem analysis_result "urgency_indicators") fun urgency_indicators =>
  pyBind (getItem analysis_result "business_impact") fun business_impact =>
  pyBind (getItem analysis_result "suggested_response_type") fun suggested_response_type =>
  .ok { category := category, priority := priority, key_points := key_points,
        required_expertise := required_expertise, sentiment := sentiment,
        urgency_indicators := urgency_indicators, business_impact := business_impact,
        suggested_response_type := suggested_response_type }

/-- `TicketAnalysisAgent.analyze_ticket`.  `ticket_content` and
`customer_info` only feed the prompt of the extraction request; the
outcome of that request is the `extraction` input.  The agent catches
nothing itself: a failed call or failed `json.loads` of the function-call
arguments propagates, then the sentiment sub-call runs (it never raises),
then the result object is constructed. -/
def analyze_ticket (ticket_content : String)
    (customer_info : Option (List (String × PyVal)))
    (extraction : CallOutcome) (sim : SimilarityOutcome) :
    Except PyError TicketAnalysis :=
  let _prompt := ticket_content ++ jsonDumps (.pdict (customer_info.getD []))
  match extraction with
  | .callFailed e => .error e
  | .malformedJson m => .error (.jsonDecodeError m)
  | .parsed analysis_result =>
    let sentiment := analyze_sentiment sim
    parseAnalysisResult analysis_result sentiment

/-! ## Response agent (`src/agents/response_agent.py`) -/

/-- Propagation and parsing of the generation call's outcome: call failure
and `json.loads` failure propagate, then the four fields are read by
subscript (in source order) and stored unvalidated. -/
def parseGenResult (gen : CallOutcome) : Except PyError ResponseSuggestion :=
  match gen with
  | .callFailed e => .error e
  | .malformedJson m => .error (.jsonDecodeError m)
  | .parsed response_result =>
    pyBind (getItem response_result "response_text") fun response_text =>
    pyBind (getItem response_result "confidence_score") fun confidence_score =>
    pyBind (getItem response_result "requires_approval") fun requires_approval =>
    pyBind (getItem response_result "suggested_actions") fun suggested_actions =>
    .ok { response_text := response_text, confidence_score := confidence_score,
          requires_approval := requires_approval, suggested_actions := suggested_actions }

/-- `ResponseAgent.generate_response`.  The templates, the analysis summary
and `json.dumps(context)` feed the prompt of the generation request (built
before anything can suspend); the outcome of the request is the `gen`
input.  The agent catches nothing; the result is exactly
`parseGenResult gen`. -/
def generate_response (ticket_analysis : TicketAnalysis)
    (response_templates : List (String × String)) (context : Ctx)
    (gen : CallOutcome) : Except PyError ResponseSuggestion :=
  let _prompt := jsonDumps (.pdict (response_templates.map (fun p => (p.1, .pstr p.2))))
    ++ ticket_analysis.category.value ++ jsonDumps (.pdict context)
  parseGenResult gen

/-! ## Orchestrator (`src/agents/ticket_processor.py`) -/

/-- `TicketProcessor._load_response_templates` (leading underscore
dropped): the fixed five-entry template catalog.  The bodies are the
source's prompt text abbreviated to their placeholder skeletons; no claim
depends on the template text, only on the catalog being a fixed dict. -/
def load_response_templates : List (String × String) :=
  [("access_issue",
    "Hello {name}, trouble accessing the {feature}. {diagnosis} " ++
    "{resolution_steps} Priority Status: {priority_level} Estimated Resolution: {eta}"),
   ("billing_inquiry",
    "Hi {name}, thank you for your inquiry about {billing_topic}. {explanation} {next_steps}"),
   ("feature_request",
    "Hello {name}, thank you for your suggestion regarding {feature_name}. " ++
    "{acknowledgment} {status_update} {timeline}"),
   ("technical_issue",
    "Hi {name}, thank you for reporting the issue with {affected_component}. " ++
    "{technical_analysis} {solution_steps} Current Status: {status} Expected Resolution: {timeline}"),
   ("urgent_issue",
    "URGENT RESPONSE Hello {name}, issue regarding {issue_summary}. {immediate_actions} " ++
    "{escalation_status} Specialist: {specialist_name} Direct Contact: {specialist_contact}")]

/-- Mutable state of a `TicketProcessor` instance plus the position of the
ambient clock: `self.context` (initialised to `{}` in `__init__`) and the
index of the next `datetime.now()` reading. -/
structure ProcState where
  context : Ctx
  clockIdx : Nat
deriving Repr

/-- One `datetime.now()` call: read the clock and advance. -/
def now (clock : Nat → ℚ) (s : ProcState) : ℚ × ProcState :=
  (clock s.clockIdx, { s with clockIdx := s.clockIdx + 1 })

/-- The five-pair dict literal merged into `self.context` in step 2 of
`process_ticket`. -/
def ctxUpdatePairs (ticket : SupportTicket) (analysis : TicketAnalysis)
    (analysis_timestamp : ℚ) : List (String × PyVal) :=
  [("ticket_id", .pstr ticket.id),
   ("analysis_timestamp", .pstr (isoformat analysis_timestamp)),
   ("category", .pstr analysis.category.value),
   ("priority", .pint analysis.priority.value),
   ("customer_info", .pdict ticket.customer_info)]

/-- The single `except Exception` block of `process_ticket`: build the
error resolution.  Python evaluates the constructor arguments in order:
`processed_at = datetime.now()` first, then
`processing_time = (datetime.now() - start_time).total_seconds()`. -/
def errorResolution (clock : Nat → ℚ) (ticket : SupportTicket) (e : PyError)
    (start_time : ℚ) (s : ProcState) : TicketResolution × ProcState :=
  let (processed_at, s1) := now clock s
  let (t_end, s2) := now clock s1
  ({ ticket_id := ticket.id, analysis := none, response := none,
     processed_at := processed_at, processing_time := t_end - start_time,
     status := "error", error := some e.str }, s2)

/-- The f-string passed to the analysis agent:
`"Subject: {ticket.subject}\n\nContent: {ticket.content}"`. -/
def ticketContent (ticket : SupportTicket) : String :=
  "Subject: " ++ ticket.subject ++ "\n\nContent: " ++ ticket.content

/-- `TicketProcessor.process_ticket`.  Steps: take `start_time`; (1) call
the analysis agent on `"Subject: ...\n\nContent: ..."`; (2) merge the five
analysis keys into `self.context` (one `datetime.now()` for the
timestamp); (3) load templates; (4) call the response agent with the
now-updated context; (5) measure `processing_time`; (6) build the
completed resolution (`processed_at = datetime.now()` is a later reading
than the measurement).  Any exception in (1)–(4) lands in the single
`except` block (`errorResolution`). -/
def process_ticket (clock : Nat → ℚ) (ticket : SupportTicket)
    (extraction : CallOutcome) (sim : SimilarityOutcome) (gen : CallOutcome)
    (s : ProcState) : TicketResolution × ProcState :=
  let (start_time, s1) := now clock s
  match analyze_ticket (ticketContent ticket) (some ticket.customer_info)
      extraction sim with
  | .error e => errorResolution clock ticket e start_time s1
  | .ok analysis =>
    let (analysis_timestamp, s2) := now clock s1
    let s3 := { s2 with
      context := dictUpdate s2.context (ctxUpdatePairs ticket analysis analysis_timestamp) }
    let templates := load_response_templates
    match generate_response analysis templates s3.context gen with
    | .error e => errorResolution clock ticket e start_time s3
    | .ok response =>
      let (t_measure, s4) := now clock s3
      let processing_time := t_measure - start_time
      let (processed_at, s5) := now clock s4
      ({ ticket_id := ticket.id, analysis := some analysis, response := some response,
         processed_at := processed_at, processing_time := processing_time,
         status := "completed", error := none }, s5)

/-- `TicketProcessor.batch_process_tickets`.  `asyncio.gather` is invoked
on one `process_ticket` coroutine per ticket and returns results in
argument order.  All three service clients in this repository are
synchronous, so no coroutine ever suspends at an await point: the event
loop runs each task to completion in submission order, which this
sequential fold models exactly.  Each element of `inputs` pairs a ticket
with the outcomes of its three external calls. -/
def batch_process_tickets (clock : Nat → ℚ)
    (inputs : List (SupportTicket × CallOutcome × SimilarityOutcome × CallOutcome))
    (s : ProcState) : List TicketResolution × ProcState :=
  match inputs with
  | [] => ([], s)
  | (t, ext, sim, gen) :: rest =>
    let pr := process_ticket clock t ext sim gen s
    let br := batch_process_tickets clock rest pr.2
    (pr.1 :: br.1, br.2)

/-- The record returned by `TicketProcessor.get_processing_stats`. -/
structure ProcessingStats where
  total_processed : Nat
  last_processed : Option PyVal
  context_size : Nat
deriving Repr

/-- `TicketProcessor.get_processing_stats`: `len(self.context)` (number of
keys), `self.context.get("analysis_timestamp")`, and
`len(json.dumps(self.context))`. -/
def get_processing_stats (ctx : Ctx) : ProcessingStats :=
  { total_processed := ctx.length,
    last_processed := dictGet ctx "analysis_timestamp",
    context_size := (jsonDumps (.pdict ctx)).length }

/-! ## Cooperative interleaving of batch execution (for the concurrency
claim)

Under `asyncio`, a task switch can occur only where a coroutine awaits an
operation that actually suspends.  In `process_ticket`, the shared-context
WRITE (`self.context.update(...)`, step 2) and the shared-context READ
(`json.dumps(context)` while `generate_response` builds its prompt) are
separated by no `await` at all: `_load_response_templates` is synchronous
and `await coroutine` runs the coroutine body inline up to its first
suspension, which in `generate_response` does not occur before the context
is read.  Hence write and read of one ticket form a single atomic segment
of that ticket's task.  A batch execution is modelled as an arbitrary
sequence of such segments (any interleaving of the per-ticket tasks that
cooperative scheduling could produce, including repetitions or dropped
tickets — the claim holds for all of them).  Each job carries the analysis
result and timestamp its segment writes. -/

/-- Run one interleaving: `sched` names, in execution order, the ticket
whose atomic (context-write; context-read) segment runs next.  Returns the
list of (ticket index, context as read by that ticket's response step) in
execution order, and the final context. -/
def runSchedule (jobs : List (SupportTicket × TicketAnalysis × ℚ))
    (sched : List Nat) (ctx0 : Ctx) : List (Nat × Ctx) × Ctx :=
  match sched with
  | [] => ([], ctx0)
  | i :: rest =>
    match jobs.get? i with
    | none => runSchedule jobs rest ctx0
    | some (t, a, ts) =>
      let ctx1 := dictUpdate ctx0 (ctxUpdatePairs t a ts)
      let r := runSchedule jobs rest ctx1
      ((i, ctx1) :: r.1, r.2)

/-! ## Dictionary lemmas -/

theorem dictGet_dictSet (ctx : Ctx) (k : String) (v : PyVal) (k' : String) :
    dictGet (dictSet ctx k v) k' = if k' = k then some v else dictGet ctx k' := by
  induction ctx with
  | nil =>
    by_cases h : k' = k
    · simp [dictSet, dictGet, List.find?, h]
    · have hd : decide (k = k') = false := decide_eq_false (fun hh => h hh.symm)
      simp [dictSet, dictGet, List.find?, hd, h]
  | cons p rest ih =>
    by_cases hp : p.1 = k
    · by_cases h : k' = k
      · have hd : decide (k = k') = true := decide_eq_true h.symm
        simp [dictSet, hp, dictGet, List.find?, hd, h]
      · have hd : decide (k = k') = false := decide_eq_false (fun hh => h hh.symm)
        have hd2 : decide (p.1 = k') = false :=
          decide_eq_false (fun hh => h (hh.symm.trans hp))
        simp [dictSet, hp, dictGet, List.find?, hd, hd2, h]
    · by_cases hq : p.1 = k'
      · have h : ¬(k' = k) := fun hh => hp (hq.trans hh)
        have hd2 : decide (p.1 = k') = true := decide_eq_true hq
        simp [dictSet, hp, dictGet, List.find?, hd2, h]
      · have hd2 : decide (p.1 = k') = false := decide_eq_false hq
        simp only [dictSet, hp, if_false, dictGet, List.find?, hd2] at ih ⊢
        exact ih

theorem dictGet_some_mem {ctx : Ctx} {k : String} {v : PyVal}
    (h : dictGet ctx k = some v) : (k, v) ∈ ctx := by
  unfold dictGet at h
  cases hf : ctx.find? (fun p => p.1 = k) with
  | none => rw [hf] at h; simp at h
  | some p =>
    rw [hf] at h
    simp at h
    have hm := List.mem_of_find?_eq_some hf
    have hp := List.find?_some hf
    simp at hp
    cases p with
    | mk a b =>
      simp at hp h
      subst hp
      subst h
      exact hm

/-- Lookup in the context after step 2's five-key merge: each of the five
keys is bound to the current ticket's value, every other key keeps its
previous binding. -/
theorem dictGet_dictUpdate_five (ctx : Ctx) (t : SupportTicket)
    (a : TicketAnalysis) (ts : ℚ) (k : String) :
    dictGet (dictUpdate ctx (ctxUpdatePairs t a ts)) k =
      if k = "customer_info" then some (.pdict t.customer_info)
      else if k = "priority" then some (.pint a.priority.value)
      else if k = "category" then some (.pstr a.category.value)
      else if k = "analysis_timestamp" then some (.pstr (isoformat ts))
      else if k = "ticket_id" then some (.pstr t.id)
      else dictGet ctx k := by
  simp [dictUpdate, ctxUpdatePairs, List.foldl_cons, List.foldl_nil, dictGet_dictSet]

/-- The key set of the shared context: the only keys `process_ticket` ever
writes. -/
def contextKeys : List String :=
  ["ticket_id", "analysis_timestamp", "category", "priority", "customer_info"]

theorem ctxUpdatePairs_keys (t : SupportTicket) (a : TicketAnalysis) (ts : ℚ) :
    (ctxUpdatePairs t a ts).map Prod.fst = contextKeys := rfl

/-- Every value readable from the shared context at the instant a job's
response step reads it (i.e. right after that job's own atomic write) is a
binding that very job wrote, provided the starting context holds no keys
outside the five the pipeline writes. -/
theorem runSchedule_reads_own (jobs : List (SupportTicket × TicketAnalysis × ℚ))
    (sched : List Nat) (ctx0 : Ctx)
    (hctx0 : ∀ k v, dictGet ctx0 k = some v → k ∈ contextKeys) :
    ∀ i c, (i, c) ∈ (runSchedule jobs sched ctx0).1 →
      ∃ t a ts, jobs.get? i = some (t, a, ts) ∧
        ∀ k v, dictGet c k = some v → (k, v) ∈ ctxUpdatePairs t a ts := by
  induction sched generalizing ctx0 with
  | nil =>
    intro i c h
    simp [runSchedule] at h
  | cons j rest ih =>
    intro i c h
    cases hj : jobs.get? j with
    | none =>
      simp only [runSchedule] at h
      rw [hj] at h
      exact ih ctx0 hctx0 i c h
    | some job =>
      obtain ⟨t, a, ts⟩ := job
      have hone : ∀ k v, dictGet (dictUpdate ctx0 (ctxUpdatePairs t a ts)) k = some v →
          (k, v) ∈ ctxUpdatePairs t a ts := by
        intro k v hkv
        rw [dictGet_dictUpdate_five] at hkv
        split_ifs at hkv with h1 h2 h3 h4 h5
        · subst h1; cases Option.some.inj hkv; simp [ctxUpdatePairs]
        · subst h2; cases Option.some.inj hkv; simp [ctxUpdatePairs]
        · subst h3; cases Option.some.inj hkv; simp [ctxUpdatePairs]
        · subst h4; cases Option.some.inj hkv; simp [ctxUpdatePairs]
        · subst h5; cases Option.some.inj hkv; simp [ctxUpdatePairs]
        · exact absurd (hctx0 k v hkv) (by simp [contextKeys, h1, h2, h3, h4, h5])
      have hkeys : ∀ k v, dictGet (dictUpdate ctx0 (ctxUpdatePairs t a ts)) k = some v →
          k ∈ contextKeys := by
        intro k v hkv
        have hk := List.mem_map_of_mem Prod.fst (hone k v hkv)
        rw [ctxUpdatePairs_keys] at hk
        exact hk
      simp only [runSchedule] at h
      rw [hj] at h
      simp only [List.mem_cons] at h
      rcases h with h | h
      · have hi : i = j := congrArg Prod.fst h
        have hc : c = dictUpdate ctx0 (ctxUpdatePairs t a ts) := congrArg Prod.snd h
        subst hi
        subst hc
        exact ⟨t, a, ts, hj, hone⟩
      · exact ih _ hkeys i c h

/-! ## Sample inputs for witness theorems -/

/-- A concrete ticket (the first sample ticket of the test suite). -/
def sampleTicket : SupportTicket :=
  { id := "TKT-001", subject := "Cannot access admin dashboard",
    content := "403 error, need this fixed ASAP for payroll",
    customer_info := [("role", .pstr "Admin")] }

/-- A schema-complete extraction payload. -/
def sampleArgs : PyVal :=
  .pdict [("category", .pstr "access"), ("priority", .pint 4),
          ("key_points", .plist [.pstr "403 error"]),
          ("required_expertise", .plist [.pstr "access management"]),
          ("urgency_indicators", .plist [.pstr "ASAP"]),
          ("business_impact", .pstr "payroll"),
          ("suggested_response_type", .pstr "access_issue")]

/-- A schema-complete generation payload. -/
def sampleGenArgs : PyVal :=
  .pdict [("response_text", .pstr "Hello, we are on it."),
          ("confidence_score", .pint 1),
          ("requires_approval", .pbool true),
          ("suggested_actions", .plist [.pstr "reset permissions"])]

/-- The analysis object produced from `sampleArgs` with neutral sentiment. -/
def sampleAnalysis : TicketAnalysis :=
  { category := .ACCESS, priority := .URGENT,
    key_points := .plist [.pstr "403 error"],
    required_expertise := .plist [.pstr "access management"],
    sentiment := 0,
    urgency_indicators := .plist [.pstr "ASAP"],
    business_impact := .pstr "payroll",
    suggested_response_type := .pstr "access_issue" }

/-- The seven mandatory fields of the extraction schema. -/
def requiredKeys : List String :=
  ["category", "priority", "key_points", "required_expertise",
   "urgency_indicators", "business_impact", "suggested_response_type"]

/-- Inversion equation for `parseAnalysisResult` on a dict payload: the
fields are consulted in the source's evaluation order and the first
failure wins. -/
theorem parseAnalysisResult_spec (kvs : List (String × PyVal)) (sent : ℚ) :
    parseAnalysisResult (.pdict kvs) sent =
      match dictGet kvs "category" with
      | none => .error (.keyError "category")
      | some catV =>
        match TicketCategory.fromVal catV with
        | none => .error (.valueError (jsonDumps catV ++ " is not a valid TicketCategory"))
        | some category =>
          match dictGet kvs "priority" with
          | none => .error (.keyError "priority")
          | some priV =>
            match Priority.fromVal priV with
            | none => .error (.valueError (jsonDumps priV ++ " is not a valid Priority"))
            | some priority =>
              match dictGet kvs "key_points" with
              | none => .error (.keyError "key_points")
              | some kp =>
                match dictGet kvs "required_expertise" with
                | none => .error (.keyError "required_expertise")
                | some re =>
                  match dictGet kvs "urgency_indicators" with
                  | none => .error (.keyError "urgency_indicators")
                  | some ui =>
                    match dictGet kvs "business_impact" with
                    | none => .error (.keyError "business_impact")
                    | some bi =>
                      match dictGet kvs "suggested_response_type" with
                      | none => .error (.keyError "suggested_response_type")
                      | some srt =>
                        .ok { category := category, priority := priority,
                              key_points := kp, required_expertise := re,
                              sentiment := sent, urgency_indicators := ui,
                              business_impact := bi,
                              suggested_response_type := srt } := by
  simp only [parseAnalysisResult, getItem_pdict]
  cases h1 : dictGet kvs "category" with
  | none => rfl
  | some catV =>
    simp only [pyBind_ok]
    cases h2 : TicketCategory.fromVal catV with
    | none => rfl
    | some category =>
      cases h3 : dictGet kvs "priority" with
      | none => rfl
      | some priV =>
        simp only [pyBind_ok]
        cases h4 : Priority.fromVal priV with
        | none => rfl
        | some priority =>
          cases h5 : dictGet kvs "key_points" with
          | none => rfl
          | some kp =>
            simp only [pyBind_ok]
            cases h6 : dictGet kvs "required_expertise" with
            | none => rfl
            | some re =>
              simp only [pyBind_ok]
              cases h7 : dictGet kvs "urgency_indicators" with
              | none => rfl
              | some ui =>
                simp only [pyBind_ok]
                cases h8 : dictGet kvs "business_impact" with
                | none => rfl
                | some bi =>
                  simp only [pyBind_ok]
                  cases h9 : dictGet kvs "suggested_response_type" with
                  | none => rfl
                  | some srt => rfl

theorem parseAnalysisResult_error_kind (kvs : List (String × PyVal)) (sent : ℚ)
    (e : PyError) (h : parseAnalysisResult (.pdict kvs) sent = .error e) :
    (e.isKeyError || e.isValueError) = true := by
  rw [parseAnalysisResult_spec] at h
  repeat' split at h
  all_goals simp at h
  all_goals (subst h; simp [PyError.isKeyError, PyError.isValueError])

theorem parseAnalysisResult_ok_fields (kvs : List (String × PyVal)) (sent : ℚ)
    (a : TicketAnalysis) (h : parseAnalysisResult (.pdict kvs) sent = .ok a) :
    ∀ k ∈ requiredKeys, (dictGet kvs k).isSome = true := by
  intro k hk
  rw [parseAnalysisResult_spec] at h
  simp only [requiredKeys, List.mem_cons, List.not_mem_nil, or_false] at hk
  repeat' split at h
  all_goals simp at h
  all_goals (rcases hk with rfl | rfl | rfl | rfl | rfl | rfl | rfl <;> simp_all)

theorem parseAnalysisResult_bad_category (kvs : List (String × PyVal)) (sent : ℚ)
    (v : PyVal) (hv : dictGet kvs "category" = some v)
    (hbad : TicketCategory.fromVal v = none) :
    parseAnalysisResult (.pdict kvs) sent =
      .error (.valueError (jsonDumps v ++ " is not a valid TicketCategory")) := by
  rw [parseAnalysisResult_spec]
  simp only [hv, hbad]

theorem parseAnalysisResult_bad_priority (kvs : List (String × PyVal)) (sent : ℚ)
    (cv : PyVal) (c : TicketCategory) (pv : PyVal)
    (hcv : dictGet kvs "category" = some cv)
    (hc : TicketCategory.fromVal cv = some c)
    (hpv : dictGet kvs "priority" = some pv)
    (hbad : Priority.fromVal pv = none) :
    parseAnalysisResult (.pdict kvs) sent =
      .error (.valueError (jsonDumps pv ++ " is not a valid Priority")) := by
  rw [parseAnalysisResult_spec]
  simp only [hcv, hc, hpv, hbad]

/-! ## Behaviour of `process_ticket` -/

/-- Case analysis of one `process_ticket` run: the returned resolution
carries the ticket's id; an analysis failure or a generation failure lands
in the single `except` block producing an error resolution with the
exception's message; joint success produces the completed resolution. -/
theorem process_ticket_behavior (clock : Nat → ℚ) (ticket : SupportTicket)
    (extraction : CallOutcome) (sim : SimilarityOutcome) (gen : CallOutcome)
    (s : ProcState) :
    ((process_ticket clock ticket extraction sim gen s).1.ticket_id = ticket.id) ∧
    (∀ e, analyze_ticket (ticketContent ticket) (some ticket.customer_info)
        extraction sim = .error e →
      (process_ticket clock ticket extraction sim gen s).1.status = "error" ∧
      (process_ticket clock ticket extraction sim gen s).1.error = some e.str ∧
      (process_ticket clock ticket extraction sim gen s).1.analysis = none ∧
      (process_ticket clock ticket extraction sim gen s).1.response = none) ∧
    (∀ a e, analyze_ticket (ticketContent ticket) (some ticket.customer_info)
        extraction sim = .ok a → parseGenResult gen = .error e →
      (process_ticket clock ticket extraction sim gen s).1.status = "error" ∧
      (process_ticket clock ticket extraction sim gen s).1.error = some e.str ∧
      (process_ticket clock ticket extraction sim gen s).1.analysis = none ∧
      (process_ticket clock ticket extraction sim gen s).1.response = none) ∧
    (∀ a resp, analyze_ticket (ticketContent ticket) (some ticket.customer_info)
        extraction sim = .ok a → parseGenResult gen = .ok resp →
      (process_ticket clock ticket extraction sim gen s).1.status = "completed" ∧
      (process_ticket clock ticket extraction sim gen s).1.analysis = some a ∧
      (process_ticket clock ticket extraction sim gen s).1.response = some resp ∧
      (process_ticket clock ticket extraction sim gen s).1.error = none) := by
  cases ha : analyze_ticket (ticketContent ticket) (some ticket.customer_info)
      extraction sim with
  | error e =>
    refine ⟨?_, ?_, ?_, ?_⟩
    · simp [process_ticket, now, ha, errorResolution]
    · intro e' he'
      injection he' with h1
      subst h1
      simp [process_ticket, now, ha, errorResolution]
    · intro a e' hok
      simp at hok
    · intro a resp hok
      simp at hok
  | ok analysis =>
    cases hg : parseGenResult gen with
    | error e =>
      refine ⟨?_, ?_, ?_, ?_⟩
      · simp [process_ticket, now, ha, generate_response, hg, errorResolution]
      · intro e' he'
        simp at he'
      · intro a e' hok hge
        injection hok with h1
        subst h1
        injection hge with h2
        subst h2
        simp [process_ticket, now, ha, generate_response, hg, errorResolution]
      · intro a resp hok hgo
        simp at hgo
    | ok resp =>
      refine ⟨?_, ?_, ?_, ?_⟩
      · simp [process_ticket, now, ha, generate_response, hg]
      · intro e' he'
        simp at he'
      · intro a e' hok hge
        simp at hge
      · intro a resp' hok hgo
        injection hok with h1
        subst h1
        injection hgo with h2
        subst h2
        simp [process_ticket, now, ha, generate_response, hg]

/-- After a successful analysis the orchestrator's context is exactly the
previous context merged with the five analysis keys (whether or not the
generation step then succeeds). -/
theorem process_ticket_context_ok (clock : Nat → ℚ) (ticket : SupportTicket)
    (extraction : CallOutcome) (sim : SimilarityOutcome) (gen : CallOutcome)
    (s : ProcState) (a : TicketAnalysis)
    (ha : analyze_ticket (ticketContent ticket) (some ticket.customer_info)
      extraction sim = .ok a) :
    (process_ticket clock ticket extraction sim gen s).2.context =
      dictUpdate s.context (ctxUpdatePairs ticket a (clock (s.clockIdx + 1))) := by
  cases hg : parseGenResult gen <;>
    simp [process_ticket, now, ha, generate_response, hg, errorResolution]

/-- An analysis failure leaves the state's context untouched. -/
theorem process_ticket_context_error (clock : Nat → ℚ) (ticket : SupportTicket)
    (extraction : CallOutcome) (sim : SimilarityOutcome) (gen : CallOutcome)
    (s : ProcState) (e : PyError)
    (ha : analyze_ticket (ticketContent ticket) (some ticket.customer_info)
      extraction sim = .error e) :
    (process_ticket clock ticket extraction sim gen s).2.context = s.context := by
  simp [process_ticket, now, ha, errorResolution]

/-! ## Claim theorems -/

/-- Claim C1 (refuted — code bug): the sentiment value is NOT clamped to
[-1, 1].  `_analyze_sentiment` returns `similarities[0] - similarities[1]`
raw; with scores 1 and -1/2 (cosine similarity can be negative) the
attached sentiment is 3/2 > 1.  The repository's own test suite asserts
`-1 <= analysis.sentiment <= 1`, and the clamping variant appears only as
dead code inside the tests, so the missing clamp contradicts the code's
own tests. -/
theorem C1_sentiment_not_clamped :
    analyze_sentiment (.scores [1, -(1/2)]) = 3/2 ∧
    ¬(analyze_sentiment (.scores [1, -(1/2)]) ≤ 1) := by
  constructor <;> norm_num [analyze_sentiment]

/-- Claim C6: if the similarity call fails in any way (raised error,
malformed response, or a score list too short to index), the sentiment
sub-algorithm returns the neutral value 0, and `analyze_ticket` still
returns a complete `TicketAnalysis` whenever the extraction payload
parses — a sentiment failure never fails the whole analysis. -/
theorem C6_sentiment_failure_absorbed (o : SimilarityOutcome)
    (h : simFailed o = true) :
    analyze_sentiment o = 0 ∧
    ∀ (tc : String) (ci : Option (List (String × PyVal))) (res : PyVal)
      (a : TicketAnalysis),
      parseAnalysisResult res 0 = .ok a →
      analyze_ticket tc ci (.parsed res) o = .ok a := by
  have hz : analyze_sentiment o = 0 := by
    cases o with
    | callFailed e => rfl
    | malformedJson m => rfl
    | scores xs =>
      rcases xs with _ | ⟨x, _ | ⟨y, t⟩⟩
      · rfl
      · rfl
      · simp [simFailed] at h
        omega
  refine ⟨hz, ?_⟩
  intro tc ci res a hres
  simpa [analyze_ticket, hz] using hres

/-- Witness for C6: a network failure of the similarity call yields
sentiment 0 and a fully populated analysis from the sample payload. -/
theorem C6_witness :
    analyze_sentiment (.callFailed (.genericError "network down")) = 0 ∧
    analyze_ticket "Subject: s\n\nContent: c" none (.parsed sampleArgs)
      (.callFailed (.genericError "network down")) = .ok sampleAnalysis := by
  have h := C6_sentiment_failure_absorbed
    (.callFailed (.genericError "network down")) rfl
  exact ⟨h.1, h.2 "Subject: s\n\nContent: c" none sampleArgs sampleAnalysis rfl⟩

/-- Claim C5 counterexample: an extraction payload missing the required
`category` field makes `analyze_ticket` fail with Python's `KeyError`,
which is not an `ExtractionError` — no `ExtractionError` class exists
anywhere in the source. -/
theorem C5_counterexample :
    analyze_ticket "t" none (.parsed (.pdict [("priority", .pint 1)]))
      (.scores [0, 0]) = .error (.keyError "category") ∧
    (PyError.keyError "category").isExtractionError = false :=
  ⟨rfl, rfl⟩

/-- Claim C5 (amended): whenever the structured-extraction response cannot
be parsed into the required schema, `analyze` fails — with `KeyError` for
a missing required field, `ValueError` for a category or priority value
outside the declared enumeration, and `JSONDecodeError` for a malformed
structured payload — never with the spec's `ExtractionError` class, which
the code does not define. -/
theorem C5_schema_failures_raise_builtin_errors :
    (∀ (kvs : List (String × PyVal)) (sent : ℚ) (e : PyError),
        parseAnalysisResult (.pdict kvs) sent = .error e →
        (e.isKeyError || e.isValueError) = true ∧ e.isExtractionError = false) ∧
    (∀ (kvs : List (String × PyVal)) (sent : ℚ) (a : TicketAnalysis),
        parseAnalysisResult (.pdict kvs) sent = .ok a →
        ∀ k ∈ requiredKeys, (dictGet kvs k).isSome = true) ∧
    (∀ (kvs : List (String × PyVal)) (sent : ℚ) (v : PyVal),
        dictGet kvs "category" = some v → TicketCategory.fromVal v = none →
        parseAnalysisResult (.pdict kvs) sent =
          .error (.valueError (jsonDumps v ++ " is not a valid TicketCategory"))) ∧
    (∀ (kvs : List (String × PyVal)) (sent : ℚ) (cv : PyVal)
        (c : TicketCategory) (pv : PyVal),
        dictGet kvs "category" = some cv → TicketCategory.fromVal cv = some c →
        dictGet kvs "priority" = some pv → Priority.fromVal pv = none →
        parseAnalysisResult (.pdict kvs) sent =
          .error (.valueError (jsonDumps pv ++ " is not a valid Priority"))) ∧
    (∀ (tc : String) (ci : Option (List (String × PyVal))) (m : String)
        (sim : SimilarityOutcome),
        analyze_ticket tc ci (.malformedJson m) sim =
          .error (.jsonDecodeError m)) := by
  refine ⟨?_, ?_, ?_, ?_, ?_⟩
  · intro kvs sent e h
    have hk := parseAnalysisResult_error_kind kvs sent e h
    refine ⟨hk, ?_⟩
    cases e <;>
      simp_all [PyError.isKeyError, PyError.isValueError, PyError.isExtractionError]
  · exact parseAnalysisResult_ok_fields
  · exact parseAnalysisResult_bad_category
  · exact parseAnalysisResult_bad_priority
  · intro tc ci m sim
    rfl

/-- Witness for the amended C5: the missing-`category` payload fails with
a `KeyError`, which is classified as a builtin error kind and not as an
`ExtractionError`. -/
theorem C5_witness :
    ((PyError.keyError "category").isKeyError ||
      (PyError.keyError "category").isValueError) = true ∧
    (PyError.keyError "category").isExtractionError = false :=
  C5_schema_failures_raise_builtin_errors.1 [("priority", .pint 1)] 0
    (.keyError "category") rfl

/-- Claim C2: every resolution returned by `process_ticket` satisfies:
status is `"completed"` iff analysis and response are both present and
error is absent, status is `"error"` iff analysis and response are both
absent and error is present, and no third status occurs. -/
theorem C2_resolution_state_invariant (clock : Nat → ℚ) (ticket : SupportTicket)
    (extraction : CallOutcome) (sim : SimilarityOutcome) (gen : CallOutcome)
    (s : ProcState) :
    ((process_ticket clock ticket extraction sim gen s).1.status = "completed" ↔
      (process_ticket clock ticket extraction sim gen s).1.analysis.isSome = true ∧
      (process_ticket clock ticket extraction sim gen s).1.response.isSome = true ∧
      (process_ticket clock ticket extraction sim gen s).1.error = none) ∧
    ((process_ticket clock ticket extraction sim gen s).1.status = "error" ↔
      (process_ticket clock ticket extraction sim gen s).1.analysis = none ∧
      (process_ticket clock ticket extraction sim gen s).1.response = none ∧
      (process_ticket clock ticket extraction sim gen s).1.error.isSome = true) ∧
    ((process_ticket clock ticket extraction sim gen s).1.status = "completed" ∨
      (process_ticket clock ticket extraction sim gen s).1.status = "error") := by
  cases ha : analyze_ticket (ticketContent ticket) (some ticket.customer_info)
      extraction sim with
  | error e => simp [process_ticket, now, ha, errorResolution]
  | ok analysis =>
    cases hg : parseGenResult gen with
    | error e =>
      simp [process_ticket, now, ha, generate_response, hg, errorResolution]
    | ok resp =>
      simp [process_ticket, now, ha, generate_response, hg]

/-- Claim C3: `process_ticket` is total (the model returns a resolution on
every path) and any exception raised by the analysis step or by the
response-generation step is caught at the orchestrator boundary and
converted into a resolution with status `"error"`, the exception's
`str(e)` message in the `error` field, and `analysis`/`response` absent.
-/
theorem C3_exception_converted_to_error_resolution (clock : Nat → ℚ)
    (ticket : SupportTicket) (extraction : CallOutcome)
    (sim : SimilarityOutcome) (gen : CallOutcome) (s : ProcState) (e : PyError) :
    (analyze_ticket (ticketContent ticket) (some ticket.customer_info)
        extraction sim = .error e →
      (process_ticket clock ticket extraction sim gen s).1.status = "error" ∧
      (process_ticket clock ticket extraction sim gen s).1.error = some e.str ∧
      (process_ticket clock ticket extraction sim gen s).1.analysis = none ∧
      (process_ticket clock ticket extraction sim gen s).1.response = none) ∧
    (∀ a, analyze_ticket (ticketContent ticket) (some ticket.customer_info)
        extraction sim = .ok a → parseGenResult gen = .error e →
      (process_ticket clock ticket extraction sim gen s).1.status = "error" ∧
      (process_ticket clock ticket extraction sim gen s).1.error = some e.str ∧
      (process_ticket clock ticket extraction sim gen s).1.analysis = none ∧
      (process_ticket clock ticket extraction sim gen s).1.response = none) := by
  constructor
  · intro ha
    exact (process_ticket_behavior clock ticket extraction sim gen s).2.1 e ha
  · intro a ha hg
    exact (process_ticket_behavior clock ticket extraction sim gen s).2.2.1 a e ha hg

/-- Witness for C3: a concrete failing extraction call is converted into
an error resolution carrying the exception's message. -/
theorem C3_witness :
    (process_ticket (fun i => (i : ℚ)) sampleTicket
        (.callFailed (.genericError "boom")) (.scores [0, 0])
        (.parsed sampleGenArgs) ⟨[], 0⟩).1.status = "error" ∧
    (process_ticket (fun i => (i : ℚ)) sampleTicket
        (.callFailed (.genericError "boom")) (.scores [0, 0])
        (.parsed sampleGenArgs) ⟨[], 0⟩).1.error = some "boom" ∧
    (process_ticket (fun i => (i : ℚ)) sampleTicket
        (.callFailed (.genericError "boom")) (.scores [0, 0])
        (.parsed sampleGenArgs) ⟨[], 0⟩).1.analysis = none ∧
    (process_ticket (fun i => (i : ℚ)) sampleTicket
        (.callFailed (.genericError "boom")) (.scores [0, 0])
        (.parsed sampleGenArgs) ⟨[], 0⟩).1.response = none :=
  (C3_exception_converted_to_error_resolution (fun i => (i : ℚ)) sampleTicket
    (.callFailed (.genericError "boom")) (.scores [0, 0])
    (.parsed sampleGenArgs) ⟨[], 0⟩ (.genericError "boom")).1 rfl

/-- Claim C10: if the analysis step fails, the orchestrator's shared
context — and therefore everything `get_processing_stats` reports — is
exactly what it was before the call, and the ticket's resolution is the
error resolution; the context write happens only after a successful
analysis. -/
theorem C10_failed_analysis_leaves_context_unchanged (clock : Nat → ℚ)
    (ticket : SupportTicket) (extraction : CallOutcome)
    (sim : SimilarityOutcome) (gen : CallOutcome) (s : ProcState) (e : PyError)
    (ha : analyze_ticket (ticketContent ticket) (some ticket.customer_info)
      extraction sim = .error e) :
    (process_ticket clock ticket extraction sim gen s).2.context = s.context ∧
    get_processing_stats (process_ticket clock ticket extraction sim gen s).2.context =
      get_processing_stats s.context ∧
    (process_ticket clock ticket extraction sim gen s).1.status = "error" ∧
    (process_ticket clock ticket extraction sim gen s).1.error = some e.str := by
  have hc := process_ticket_context_error clock ticket extraction sim gen s e ha
  have hb := (process_ticket_behavior clock ticket extraction sim gen s).2.1 e ha
  exact ⟨hc, by rw [hc], hb.1, hb.2.1⟩

/-- Witness for C10: a concrete failing extraction leaves a nonempty
pre-existing context (and its stats) untouched. -/
theorem C10_witness :
    (process_ticket (fun i => (i : ℚ)) sampleTicket
        (.malformedJson "bad json") (.scores [0, 0]) (.parsed sampleGenArgs)
        ⟨[("ticket_id", .pstr "TKT-000")], 7⟩).2.context =
      [("ticket_id", .pstr "TKT-000")] ∧
    get_processing_stats (process_ticket (fun i => (i : ℚ)) sampleTicket
        (.malformedJson "bad json") (.scores [0, 0]) (.parsed sampleGenArgs)
        ⟨[("ticket_id", .pstr "TKT-000")], 7⟩).2.context =
      get_processing_stats [("ticket_id", .pstr "TKT-000")] ∧
    (process_ticket (fun i => (i : ℚ)) sampleTicket
        (.malformedJson "bad json") (.scores [0, 0]) (.parsed sampleGenArgs)
        ⟨[("ticket_id", .pstr "TKT-000")], 7⟩).1.status = "error" ∧
    (process_ticket (fun i => (i : ℚ)) sampleTicket
        (.malformedJson "bad json") (.scores [0, 0]) (.parsed sampleGenArgs)
        ⟨[("ticket_id", .pstr "TKT-000")], 7⟩).1.error = some "bad json" :=
  C10_failed_analysis_leaves_context_unchanged (fun i => (i : ℚ)) sampleTicket
    (.malformedJson "bad json") (.scores [0, 0]) (.parsed sampleGenArgs)
    ⟨[("ticket_id", .pstr "TKT-000")], 7⟩ (.jsonDecodeError "bad json") rfl

/-- The batch returns exactly one resolution per input ticket. -/
theorem batch_process_tickets_length (clock : Nat → ℚ)
    (inputs : List (SupportTicket × CallOutcome × SimilarityOutcome × CallOutcome))
    (s : ProcState) :
    (batch_process_tickets clock inputs s).1.length = inputs.length := by
  induction inputs generalizing s with
  | nil => rfl
  | cons x rest ih =>
    obtain ⟨t, ext, sim, gen⟩ := x
    simp [batch_process_tickets, ih]

/-- The i-th resolution of the batch is the `process_ticket` result for
the i-th input, run from the state threaded through the earlier tickets.
-/
theorem batch_process_tickets_get (clock : Nat → ℚ)
    (inputs : List (SupportTicket × CallOutcome × SimilarityOutcome × CallOutcome))
    (s : ProcState) (i : Nat) (t : SupportTicket) (ext : CallOutcome)
    (sim : SimilarityOutcome) (gen : CallOutcome)
    (h : inputs[i]? = some (t, ext, sim, gen)) :
    ∃ s', (batch_process_tickets clock inputs s).1[i]? =
      some ((process_ticket clock t ext sim gen s').1) := by
  induction inputs generalizing s i with
  | nil => simp at h
  | cons x rest ih =>
    obtain ⟨t0, e0, s0, g0⟩ := x
    cases i with
    | zero =>
      simp at h
      obtain ⟨rfl, rfl, rfl, rfl⟩ := h
      exact ⟨s, by simp [batch_process_tickets]⟩
    | succ j =>
      simp at h
      obtain ⟨s', hs'⟩ := ih (process_ticket clock t0 e0 s0 g0 s).2 j h
      exact ⟨s', by simpa [batch_process_tickets] using hs'⟩

/-- Claim C4: on N input tickets the batch returns exactly N resolutions,
the i-th carrying the i-th ticket's id; a ticket whose analysis raises
gets an error resolution at its own position, and a ticket whose calls
all succeed gets a completed resolution — regardless of what happens to
the other tickets (the statement quantifies over all sibling outcomes).
`asyncio.gather(..., return_exceptions=True)` preserves argument order,
and `process_ticket` never raises, so every slot holds a resolution. -/
theorem C4_batch_contract (clock : Nat → ℚ)
    (inputs : List (SupportTicket × CallOutcome × SimilarityOutcome × CallOutcome))
    (s : ProcState) :
    ((batch_process_tickets clock inputs s).1.length = inputs.length) ∧
    (∀ (i : Nat) (t : SupportTicket) (ext : CallOutcome)
        (sim : SimilarityOutcome) (gen : CallOutcome),
      inputs[i]? = some (t, ext, sim, gen) →
      ∃ r : TicketResolution, (batch_process_tickets clock inputs s).1[i]? = some r ∧
        r.ticket_id = t.id ∧
        (∀ e, analyze_ticket (ticketContent t) (some t.customer_info) ext sim =
            .error e →
          r.status = "error" ∧ r.error = some e.str) ∧
        (∀ a resp,
          analyze_ticket (ticketContent t) (some t.customer_info) ext sim = .ok a →
          parseGenResult gen = .ok resp →
          r.status = "completed" ∧ r.analysis = some a ∧ r.response = some resp)) := by
  refine ⟨batch_process_tickets_length clock inputs s, ?_⟩
  intro i t ext sim gen h
  obtain ⟨s', hs'⟩ := batch_process_tickets_get clock inputs s i t ext sim gen h
  refine ⟨(process_ticket clock t ext sim gen s').1, hs', ?_, ?_, ?_⟩
  · exact (process_ticket_behavior clock t ext sim gen s').1
  · intro e he
    have hb := (process_ticket_behavior clock t ext sim gen s').2.1 e he
    exact ⟨hb.1, hb.2.1⟩
  · intro a resp ha hg
    have hb := (process_ticket_behavior clock t ext sim gen s').2.2.2 a resp ha hg
    exact ⟨hb.1, hb.2.1, hb.2.2.1⟩

/-- Witness for C4: a batch of three tickets whose middle ticket's
extraction call is forced to fail still yields three slots, and the
middle slot's resolution is characterised at its own position. -/
theorem C4_witness :
    ((batch_process_tickets (fun i => (i : ℚ))
        [(sampleTicket, .parsed sampleArgs, .scores [0, 0], .parsed sampleGenArgs),
         (sampleTicket, .callFailed (.genericError "forced failure"),
            .scores [0, 0], .parsed sampleGenArgs),
         (sampleTicket, .parsed sampleArgs, .scores [0, 0], .parsed sampleGenArgs)]
        ⟨[], 0⟩).1.length = 3) ∧
    (∃ r : TicketResolution, (batch_process_tickets (fun i => (i : ℚ))
        [(sampleTicket, .parsed sampleArgs, .scores [0, 0], .parsed sampleGenArgs),
         (sampleTicket, .callFailed (.genericError "forced failure"),
            .scores [0, 0], .parsed sampleGenArgs),
         (sampleTicket, .parsed sampleArgs, .scores [0, 0], .parsed sampleGenArgs)]
        ⟨[], 0⟩).1[1]? = some r ∧
      r.ticket_id = sampleTicket.id ∧
      (∀ e, analyze_ticket (ticketContent sampleTicket)
          (some sampleTicket.customer_info)
          (.callFailed (.genericError "forced failure")) (.scores [0, 0]) =
          .error e →
        r.status = "error" ∧ r.error = some e.str) ∧
      (∀ a resp,
        analyze_ticket (ticketContent sampleTicket)
          (some sampleTicket.customer_info)
          (.callFailed (.genericError "forced failure")) (.scores [0, 0]) = .ok a →
        parseGenResult (.parsed sampleGenArgs) = .ok resp →
        r.status = "completed" ∧ r.analysis = some a ∧ r.response = some resp)) := by
  have h := C4_batch_contract (fun i => (i : ℚ))
    [(sampleTicket, .parsed sampleArgs, .scores [0, 0], .parsed sampleGenArgs),
     (sampleTicket, .callFailed (.genericError "forced failure"),
        .scores [0, 0], .parsed sampleGenArgs),
     (sampleTicket, .parsed sampleArgs, .scores [0, 0], .parsed sampleGenArgs)]
    ⟨[], 0⟩
  exact ⟨h.1, h.2 1 sampleTicket (.callFailed (.genericError "forced failure"))
    (.scores [0, 0]) (.parsed sampleGenArgs) rfl⟩

/-- Claim C7: on the success path, the context-update step writes exactly
the five keys `ticket_id`, `analysis_timestamp`, `category`, `priority`
and `customer_info` — bound to the current ticket's id, the timestamp
taken during the update, the resolved category value, the resolved
priority value and the ticket's customer_info — overwriting any prior
bindings for those keys, while every other key of the shared context
keeps its previous binding. -/
theorem C7_context_update_frame (clock : Nat → ℚ) (ticket : SupportTicket)
    (extraction : CallOutcome) (sim : SimilarityOutcome) (gen : CallOutcome)
    (s : ProcState) (a : TicketAnalysis)
    (ha : analyze_ticket (ticketContent ticket) (some ticket.customer_info)
      extraction sim = .ok a) :
    dictGet (process_ticket clock ticket extraction sim gen s).2.context
      "ticket_id" = some (.pstr ticket.id) ∧
    dictGet (process_ticket clock ticket extraction sim gen s).2.context
      "analysis_timestamp" = some (.pstr (isoformat (clock (s.clockIdx + 1)))) ∧
    dictGet (process_ticket clock ticket extraction sim gen s).2.context
      "category" = some (.pstr a.category.value) ∧
    dictGet (process_ticket clock ticket extraction sim gen s).2.context
      "priority" = some (.pint a.priority.value) ∧
    dictGet (process_ticket clock ticket extraction sim gen s).2.context
      "customer_info" = some (.pdict ticket.customer_info) ∧
    (∀ k, k ∉ contextKeys →
      dictGet (process_ticket clock ticket extraction sim gen s).2.context k =
        dictGet s.context k) := by
  have hctx := process_ticket_context_ok clock ticket extraction sim gen s a ha
  rw [hctx]
  refine ⟨?_, ?_, ?_, ?_, ?_, ?_⟩
  · simp [dictGet_dictUpdate_five]
  · simp [dictGet_dictUpdate_five]
  · simp [dictGet_dictUpdate_five]
  · simp [dictGet_dictUpdate_five]
  · simp [dictGet_dictUpdate_five]
  · intro k hk
    simp only [contextKeys, List.mem_cons, List.not_mem_nil, or_false,
      not_or] at hk
    obtain ⟨h1, h2, h3, h4, h5⟩ := hk
    rw [dictGet_dictUpdate_five]
    simp [h1, h2, h3, h4, h5]

/-- Witness for C7: processing the sample ticket over a context holding a
stale unrelated key rebinds exactly the five keys and keeps the stale
binding. -/
theorem C7_witness :
    dictGet (process_ticket (fun i => (i : ℚ)) sampleTicket (.parsed sampleArgs)
        (.callFailed (.genericError "down")) (.parsed sampleGenArgs)
        ⟨[("stale", .pint 0)], 0⟩).2.context "ticket_id" =
      some (.pstr "TKT-001") ∧
    dictGet (process_ticket (fun i => (i : ℚ)) sampleTicket (.parsed sampleArgs)
        (.callFailed (.genericError "down")) (.parsed sampleGenArgs)
        ⟨[("stale", .pint 0)], 0⟩).2.context "category" =
      some (.pstr "access") ∧
    dictGet (process_ticket (fun i => (i : ℚ)) sampleTicket (.parsed sampleArgs)
        (.callFailed (.genericError "down")) (.parsed sampleGenArgs)
        ⟨[("stale", .pint 0)], 0⟩).2.context "priority" = some (.pint 4) ∧
    dictGet (process_ticket (fun i => (i : ℚ)) sampleTicket (.parsed sampleArgs)
        (.callFailed (.genericError "down")) (.parsed sampleGenArgs)
        ⟨[("stale", .pint 0)], 0⟩).2.context "customer_info" =
      some (.pdict [("role", .pstr "Admin")]) ∧
    dictGet (process_ticket (fun i => (i : ℚ)) sampleTicket (.parsed sampleArgs)
        (.callFailed (.genericError "down")) (.parsed sampleGenArgs)
        ⟨[("stale", .pint 0)], 0⟩).2.context "stale" =
      dictGet [("stale", .pint 0)] "stale" := by
  have h := C7_context_update_frame (fun i => (i : ℚ)) sampleTicket
    (.parsed sampleArgs) (.callFailed (.genericError "down"))
    (.parsed sampleGenArgs) ⟨[("stale", .pint 0)], 0⟩ sampleAnalysis rfl
  exact ⟨h.1, h.2.2.1, h.2.2.2.1, h.2.2.2.2.1,
    h.2.2.2.2.2 "stale" (by decide)⟩

/-- Claim C8: under a monotone wall clock, `processing_time` is
non-negative on every path (success, analysis failure, generation
failure) and equals the elapsed time from the first clock reading of the
call (intake) to one of the readings taken while the resolution record is
being produced. -/
theorem C8_processing_time_nonneg_and_elapsed (clock : Nat → ℚ)
    (hmono : ∀ i j, i ≤ j → clock i ≤ clock j) (ticket : SupportTicket)
    (extraction : CallOutcome) (sim : SimilarityOutcome) (gen : CallOutcome)
    (s : ProcState) :
    0 ≤ (process_ticket clock ticket extraction sim gen s).1.processing_time ∧
    ∃ j, s.clockIdx ≤ j ∧
      j < (process_ticket clock ticket extraction sim gen s).2.clockIdx ∧
      (process_ticket clock ticket extraction sim gen s).1.processing_time =
        clock j - clock s.clockIdx := by
  cases ha : analyze_ticket (ticketContent ticket) (some ticket.customer_info)
      extraction sim with
  | error e =>
    have hp : (process_ticket clock ticket extraction sim gen s).1.processing_time =
        clock (s.clockIdx + 2) - clock s.clockIdx := by
      simp [process_ticket, now, ha, errorResolution]
    have hi : (process_ticket clock ticket extraction sim gen s).2.clockIdx =
        s.clockIdx + 3 := by
      simp [process_ticket, now, ha, errorResolution]
    refine ⟨?_, s.clockIdx + 2, Nat.le_add_right _ _, ?_, hp⟩
    · rw [hp]
      have := hmono s.clockIdx (s.clockIdx + 2) (Nat.le_add_right _ _)
      linarith
    · rw [hi]
      omega
  | ok analysis =>
    cases hg : parseGenResult gen with
    | error e =>
      have hp : (process_ticket clock ticket extraction sim gen s).1.processing_time =
          clock (s.clockIdx + 3) - clock s.clockIdx := by
        simp [process_ticket, now, ha, generate_response, hg, errorResolution]
      have hi : (process_ticket clock ticket extraction sim gen s).2.clockIdx =
          s.clockIdx + 4 := by
        simp [process_ticket, now, ha, generate_response, hg, errorResolution]
      refine ⟨?_, s.clockIdx + 3, Nat.le_add_right _ _, ?_, hp⟩
      · rw [hp]
        have := hmono s.clockIdx (s.clockIdx + 3) (Nat.le_add_right _ _)
        linarith
      · rw [hi]
        omega
    | ok resp =>
      have hp : (process_ticket clock ticket extraction sim gen s).1.processing_time =
          clock (s.clockIdx + 2) - clock s.clockIdx := by
        simp [process_ticket, now, ha, generate_response, hg]
      have hi : (process_ticket clock ticket extraction sim gen s).2.clockIdx =
          s.clockIdx + 4 := by
        simp [process_ticket, now, ha, generate_response, hg]
      refine ⟨?_, s.clockIdx + 2, Nat.le_add_right _ _, ?_, hp⟩
      · rw [hp]
        have := hmono s.clockIdx (s.clockIdx + 2) (Nat.le_add_right _ _)
        linarith
      · rw [hi]
        omega

/-- Witness for C8 at the identity clock and a failing extraction call. -/
theorem C8_witness :
    0 ≤ (process_ticket (fun i => (i : ℚ)) sampleTicket
        (.callFailed (.genericError "boom")) (.scores [0, 0])
        (.parsed sampleGenArgs) ⟨[], 0⟩).1.processing_time ∧
    ∃ j, (⟨[], 0⟩ : ProcState).clockIdx ≤ j ∧
      j < (process_ticket (fun i => (i : ℚ)) sampleTicket
        (.callFailed (.genericError "boom")) (.scores [0, 0])
        (.parsed sampleGenArgs) ⟨[], 0⟩).2.clockIdx ∧
      (process_ticket (fun i => (i : ℚ)) sampleTicket
        (.callFailed (.genericError "boom")) (.scores [0, 0])
        (.parsed sampleGenArgs) ⟨[], 0⟩).1.processing_time =
        (fun i => (i : ℚ)) j - (fun i => (i : ℚ)) (⟨[], 0⟩ : ProcState).clockIdx :=
  C8_processing_time_nonneg_and_elapsed (fun i => (i : ℚ))
    (fun i j hij => by simpa using Nat.cast_le.mpr hij) sampleTicket
    (.callFailed (.genericError "boom")) (.scores [0, 0])
    (.parsed sampleGenArgs) ⟨[], 0⟩

/-- Claim C9: in every cooperative interleaving of a batch (the only
schedules `asyncio` can produce, since the context write of step 2 and
the context read inside the response step are not separated by any
`await`), every value the response step of a ticket reads from the shared
context is a binding written during that same ticket's own analysis step
— never ticket B's freshly written values observed by ticket A. -/
theorem C9_response_reads_only_own_writes
    (jobs : List (SupportTicket × TicketAnalysis × ℚ)) (sched : List Nat)
    (i : Nat) (c : Ctx) (h : (i, c) ∈ (runSchedule jobs sched []).1) :
    ∃ t a ts, jobs.get? i = some (t, a, ts) ∧
      ∀ k v, dictGet c k = some v → (k, v) ∈ ctxUpdatePairs t a ts :=
  runSchedule_reads_own jobs sched []
    (by intro k v hkv; simp [dictGet] at hkv) i c h

/-- Witness for C9: a one-segment schedule over the sample job. -/
theorem C9_witness :
    ∃ t a ts,
      [(sampleTicket, sampleAnalysis, (5 : ℚ))].get? 0 = some (t, a, ts) ∧
      ∀ k v,
        dictGet (dictUpdate [] (ctxUpdatePairs sampleTicket sampleAnalysis 5)) k =
          some v →
        (k, v) ∈ ctxUpdatePairs t a ts :=
  C9_response_reads_only_own_writes [(sampleTicket, sampleAnalysis, 5)] [0] 0
    (dictUpdate [] (ctxUpdatePairs sampleTicket sampleAnalysis 5))
    (List.Mem.head _)
